import Mathlib

/-!
A shallow embedding of the traffic micro-simulation core:
the per-tick vehicle update engine (`src/simulation/vehicle.py`) and the
fleet placement loop (`src/simulation/simulation.py`).

Modelling conventions:
* Python `float` kinematic quantities (positions, speeds, limits, `dt`)
  are rationals `ℚ`; polyline coordinates are stored as `ℚ` pairs and cast
  to `ℝ` inside the angle computation (`math.atan2` is transcendental).
* Python `int` quantities (ids, lane indices, lane counts) are `ℤ`;
  the route cursor is a `ℕ` list index.
* `streets_map` is a total function: the program treats a route id missing
  from the street dictionary as a fatal configuration error, outside the
  modelled behaviour.
* An `Intersection` is the opaque admission oracle consumed by the code.
* The mutating `Vehicle.update` method becomes a state-passing function
  returning the post-tick vehicle.  The sequence of local computations
  (`desired_accel`, lane change, traffic-light gating, speed and position
  integration) is split into named definitions in source order so that
  theorems can refer to the intermediate quantities.
-/

inductive Turn where
  | left
  | through
  | right
deriving DecidableEq, Repr

/-- Street record: the fields of the external `Street` collaborator consumed
by `vehicle.py` (geometry, lanes, limit, end intersection id). -/
structure Street where
  id : ℤ
  length : ℚ
  speed_limit : ℚ
  num_lanes : ℤ
  lane_dirs : List (List Turn)
  coords : List (ℚ × ℚ)
  end_node : ℤ
deriving DecidableEq

/-- Intersection: an opaque admission oracle keyed by (street id, lane index),
mirroring `Intersection.can_vehicle_enter`. -/
structure Intersection where
  can_vehicle_enter : ℤ → ℤ → Bool

/-- The closed profile set keying `VEHICLE_PROFILES` in `vehicle.py`. -/
inductive Profile where
  | raser
  | normal
  | slow_driver
deriving DecidableEq

/-- Table `VEHICLE_PROFILES`: profile tag to (speed_factor, reaction_time);
`raser ↦ (1.50, 0.8)`, `normal ↦ (1.00, 1.0)`, `slow_driver ↦ (0.75, 1.0)`. -/
def VEHICLE_PROFILES : Profile → ℚ × ℚ
  | .raser => (3/2, 4/5)
  | .normal => (1, 1)
  | .slow_driver => (3/4, 1)

/-- The vehicle state owned by `Vehicle.__init__` / mutated by `Vehicle.update`. -/
structure Vehicle where
  vehicle_id : ℤ
  profile : Profile
  speed_factor : ℚ
  reaction_time : ℚ
  current_street : Street
  lane_index : ℤ
  position_s : ℚ
  route_streets : List ℤ
  route_index : ℕ
  streets_map : ℤ → Street
  intersections_map : ℤ → Option Intersection
  speed : ℚ
  max_accel : ℚ
  max_decel : ℚ
  base_speed_limit : ℚ
  done : Bool

/-- Constructor `Vehicle.__init__`: position 0, speed 0, route cursor 0, accel bounds 2/4,
cached `base_speed_limit = current_street.speed_limit * speed_factor`. -/
def Vehicle.init (vehicle_id : ℤ) (profile : Profile) (current_street : Street)
    (lane_index : ℤ) (route_streets : List ℤ) (streets_map : ℤ → Street)
    (intersections_map : ℤ → Option Intersection) : Vehicle :=
  { vehicle_id := vehicle_id
    profile := profile
    speed_factor := (VEHICLE_PROFILES profile).1
    reaction_time := (VEHICLE_PROFILES profile).2
    current_street := current_street
    lane_index := lane_index
    position_s := 0
    route_streets := route_streets
    route_index := 0
    streets_map := streets_map
    intersections_map := intersections_map
    speed := 0
    max_accel := 2
    max_decel := 4
    base_speed_limit := current_street.speed_limit * (VEHICLE_PROFILES profile).1
    done := false }

/-- Accessor `Vehicle.current_street_id` (the current street is always present in the
modelled state, so the `-1` fallback for a missing street does not arise). -/
def Vehicle.current_street_id (v : Vehicle) : ℤ :=
  v.current_street.id

/-- Predicate `Vehicle._lane_allows_turn`: does `st.lane_dirs[ln]` contain the turn
("through" additionally satisfied by a lane set containing "through"). -/
def laneAllowsTurn (st : Street) (ln : ℤ) (turn : Turn) : Bool :=
  if ln < 0 ∨ st.num_lanes ≤ ln then false
  else
    let directions := st.lane_dirs.getD ln.toNat []
    if turn = .through then directions.contains turn || directions.contains .through
    else directions.contains turn

/-- Collision avoidance (`vehicle.py` lines 68–73): desired acceleration is
`max_accel` unless a same-street same-lane leader is closer than the
time-headway margin, in which case it is `-max_decel`. -/
def Vehicle.accelAfterLeader (v : Vehicle) (leader : Option Vehicle) : ℚ :=
  match leader with
  | none => v.max_accel
  | some l =>
    if l.current_street_id = v.current_street_id ∧ l.lane_index = v.lane_index then
      if l.position_s - v.position_s - 5 < v.speed * v.reaction_time then
        -v.max_decel
      else v.max_accel
    else v.max_accel

/-- Proactive lane change (`vehicle.py` lines 80–93): with a pending turn and
less than 50 units to the segment end, a lane that does not permit the turn
is left one step towards the side of the turn (left raises the index,
right lowers it, within bounds). -/
def Vehicle.laneAfterChange (v : Vehicle) (turn_dir : Option Turn) : ℤ :=
  match turn_dir with
  | none => v.lane_index
  | some t =>
    if v.current_street.length - v.position_s < 50 then
      if laneAllowsTurn v.current_street v.lane_index t then v.lane_index
      else
        match t with
        | .left =>
          if v.lane_index < v.current_street.num_lanes - 1 then v.lane_index + 1
          else v.lane_index
        | .right =>
          if 0 < v.lane_index then v.lane_index - 1 else v.lane_index
        | .through => v.lane_index
    else v.lane_index

/-- Traffic-light gating (`vehicle.py` lines 96–101): within 20 units of the
segment end, a denying intersection forces `-max_decel`; the query uses the
lane index after the proactive lane change. -/
def Vehicle.accelAfterLight (v : Vehicle) (leader : Option Vehicle) (lane1 : ℤ) : ℚ :=
  if v.current_street.length - v.position_s < 20 then
    match v.intersections_map v.current_street.end_node with
    | some inter =>
      if inter.can_vehicle_enter v.current_street.id lane1 = false then -v.max_decel
      else v.accelAfterLeader leader
    | none => v.accelAfterLeader leader
  else v.accelAfterLeader leader

/-- Effective speed ceiling (`vehicle.py` line 105):
`min(street_limit * speed_factor, base_speed_limit)`. -/
def Vehicle.finalLimit (v : Vehicle) : ℚ :=
  min (v.current_street.speed_limit * v.speed_factor) v.base_speed_limit

/-- Speed integration (`vehicle.py` lines 108–109):
`clamp(speed + desired_accel * dt, 0, final_limit)`. -/
def Vehicle.newSpeed (v : Vehicle) (dt : ℚ) (leader : Option Vehicle)
    (turn_dir : Option Turn) : ℚ :=
  max 0 (min (v.speed + v.accelAfterLight leader (v.laneAfterChange turn_dir) * dt)
    v.finalLimit)

/-- Position integration (`vehicle.py` line 112): `position_s + new_speed * dt`
before the end-of-segment comparison. -/
def Vehicle.newPos (v : Vehicle) (dt : ℚ) (leader : Option Vehicle)
    (turn_dir : Option Turn) : ℚ :=
  v.position_s + v.newSpeed dt leader turn_dir * dt

/-- Body of `Vehicle.update` with the turn classification passed in
(the classification itself involves `atan2` and is defined separately). -/
def Vehicle.updateAux (v : Vehicle) (dt : ℚ) (leader : Option Vehicle)
    (turn_dir : Option Turn) : Vehicle :=
  if v.done = true then v
  else
    let lane1 := v.laneAfterChange turn_dir
    let new_speed := v.newSpeed dt leader turn_dir
    let new_pos := v.position_s + new_speed * dt
    if v.current_street.length ≤ new_pos then
      match v.intersections_map v.current_street.end_node with
      | some inter =>
        if inter.can_vehicle_enter v.current_street.id lane1 = false then
          { v with lane_index := lane1, speed := 0,
                   position_s := v.current_street.length }
        else
          if v.route_streets.length ≤ v.route_index + 1 then
            { v with lane_index := lane1, route_index := v.route_index + 1,
                     done := true }
          else
            let next_st := v.streets_map (v.route_streets.getD (v.route_index + 1) 0)
            { v with current_street := next_st
                     lane_index := min lane1 (next_st.num_lanes - 1)
                     position_s := 0
                     speed := 0
                     base_speed_limit := next_st.speed_limit * v.speed_factor
                     route_index := v.route_index + 1 }
      | none =>
        { v with lane_index := lane1, done := true }
    else
      { v with lane_index := lane1, speed := new_speed, position_s := new_pos }

/-- Four-quadrant `math.atan2` on exact reals. -/
noncomputable def atan2 (y x : ℝ) : ℝ :=
  if 0 < x then Real.arctan (y / x)
  else if x < 0 then
    if 0 ≤ y then Real.arctan (y / x) + Real.pi
    else Real.arctan (y / x) - Real.pi
  else if 0 < y then Real.pi / 2
  else if y < 0 then -(Real.pi / 2)
  else 0

/-- Raw heading difference of `_next_turn_direction` in degrees:
`degrees(atan2(v2) - atan2(v1))` for the last edge of the current polyline
and the first edge of the next polyline. -/
noncomputable def headingDiff (ccoords ncoords : List (ℚ × ℚ)) : ℝ :=
  let p1 := ccoords.getD (ccoords.length - 2) (0, 0)
  let p2 := ccoords.getD (ccoords.length - 1) (0, 0)
  let q1 := ncoords.getD 0 (0, 0)
  let q2 := ncoords.getD 1 (0, 0)
  let a1 := atan2 ((p2.2 : ℝ) - (p1.2 : ℝ)) ((p2.1 : ℝ) - (p1.1 : ℝ))
  let a2 := atan2 ((q2.2 : ℝ) - (q1.2 : ℝ)) ((q2.1 : ℝ) - (q1.1 : ℝ))
  (a2 - a1) * 180 / Real.pi

/-- Normalization pass of `_next_turn_direction`: one conditional
adjustment by ±360. -/
noncomputable def normalizeDeg (d : ℝ) : ℝ :=
  if 180 < d then d - 360
  else if d < -180 then d + 360
  else d

/-- Classification core of `_next_turn_direction`: `right` above 30 degrees,
`left` below −30 degrees, `through` otherwise. -/
noncomputable def turnFromPolylines (ccoords ncoords : List (ℚ × ℚ)) : Turn :=
  let d := normalizeDeg (headingDiff ccoords ncoords)
  if 30 < d then .right
  else if d < -30 then .left
  else .through

/-- Method `Vehicle._next_turn_direction`: `none` when the route cursor is at or past
the penultimate entry, otherwise the classification against the next
route segment. -/
noncomputable def Vehicle.nextTurnDirection (v : Vehicle) : Option Turn :=
  if v.route_streets.length - 1 ≤ v.route_index then none
  else
    let next_st := v.streets_map (v.route_streets.getD (v.route_index + 1) 0)
    some (turnFromPolylines v.current_street.coords next_st.coords)

/-- Method `Vehicle.update(dt, leader)` as a state transformer. -/
noncomputable def Vehicle.update (v : Vehicle) (dt : ℚ) (leader : Option Vehicle) : Vehicle :=
  v.updateAux dt leader v.nextTurnDirection

/-- Modelled from the spec: normalization of the angular difference into the
half-open interval (−180°, 180°] as worded in §4.2 Step 2, for comparison
with the code's `normalizeDeg`. -/
noncomputable def specNormalizeDeg (d : ℝ) : ℝ :=
  if 180 < d then d - 360
  else if d ≤ -180 then d + 360
  else d

/-- Turn classification as the spec words it: same angles and thresholds, but
with the spec's (−180°, 180°] normalization. -/
noncomputable def specTurnFromPolylines (ccoords ncoords : List (ℚ × ℚ)) : Turn :=
  let d := specNormalizeDeg (headingDiff ccoords ncoords)
  if 30 < d then .right
  else if d < -30 then .left
  else .through

/-- Spec-worded variant of `_next_turn_direction` built on
`specTurnFromPolylines`. -/
noncomputable def Vehicle.specNextTurnDirection (v : Vehicle) : Option Turn :=
  if v.route_streets.length - 1 ≤ v.route_index then none
  else
    let next_st := v.streets_map (v.route_streets.getD (v.route_index + 1) 0)
    some (specTurnFromPolylines v.current_street.coords next_st.coords)

/-- Capacity interface of a street as consumed by `Simulator._create_vehicles`:
`create_vehicle(count)` accepts or rejects a batch. -/
structure FleetStreet where
  create_vehicle : ℕ → Bool

/-- One iteration of the `_create_vehicles` loop: pick a street and a batch
size in `[1, remaining]` (the random draws are abstracted into the `pick`
pair), decrement on acceptance.  A zero remaining count means the loop
guard `vehicle_count > 0` has already stopped the loop. -/
def createStep (streets : List FleetStreet) (pick : ℕ × ℕ) (remaining : ℕ) : ℕ :=
  if remaining = 0 then 0
  else
    let street := streets.getD (pick.1 % streets.length) ⟨fun _ => false⟩
    let count := 1 + pick.2 % remaining
    if street.create_vehicle count then remaining - count else remaining

/-- The `_create_vehicles` loop run for `n` iterations from a remaining count,
with the random stream abstracted as `oracle`. -/
def createRun (streets : List FleetStreet) (oracle : ℕ → ℕ × ℕ) :
    ℕ → ℕ → ℕ
  | 0, remaining => remaining
  | n + 1, remaining => createStep streets (oracle n) (createRun streets oracle n remaining)

/-! ### Concrete fixtures used by witnesses and counterexamples -/

/-- An intersection admitting every query. -/
def interAllow : Intersection := ⟨fun _ _ => true⟩

/-- An intersection denying every query. -/
def interDeny : Intersection := ⟨fun _ _ => false⟩

/-- Fixture builder: a `normal`-profile vehicle (factor 1, reaction 1) at route
cursor 0 with the constructor's acceleration bounds. -/
def baseVehicle (st : Street) (smap : ℤ → Street) (imap : ℤ → Option Intersection)
    (route : List ℤ) (lane : ℤ) (pos speed : ℚ) : Vehicle :=
  { vehicle_id := 0
    profile := .normal
    speed_factor := 1
    reaction_time := 1
    current_street := st
    lane_index := lane
    position_s := pos
    route_streets := route
    route_index := 0
    streets_map := smap
    intersections_map := imap
    speed := speed
    max_accel := 2
    max_decel := 4
    base_speed_limit := st.speed_limit * 1
    done := false }

/-- A plain eastbound street with no mapped end intersection in the fixtures
that use it. -/
def stEast : Street :=
  { id := 1, length := 10, speed_limit := 10, num_lanes := 2
    lane_dirs := [[.through], [.through]], coords := [(0, 0), (1, 0)], end_node := 7 }

/-- C1/C4 witness vehicle: single-entry route, no intersection at the end. -/
def v1w : Vehicle := baseVehicle stEast (fun _ => stEast) (fun _ => none) [1] 0 0 0

/-- C4 counterexample vehicle: position 8 so that one tick lands exactly on the
segment end (new position 10 = length). -/
def v4c : Vehicle := baseVehicle stEast (fun _ => stEast) (fun _ => none) [1] 0 8 0

/-- C2 vehicle: speed 20 at position 9 of a length-10 street whose end
intersection denies every admission query. -/
def v2c : Vehicle := baseVehicle stEast (fun _ => stEast) (fun _ => some interDeny) [1] 0 9 20

/-- C3 current street: two lanes, lane 0 permits only `through`, heading east. -/
def stA3 : Street :=
  { id := 1, length := 10, speed_limit := 10, num_lanes := 2
    lane_dirs := [[.through], [.left]], coords := [(0, 0), (1, 0)], end_node := 7 }

/-- C3 next street: first edge heading south, so the code classifies the
transition as a left turn. -/
def stB3 : Street :=
  { id := 2, length := 50, speed_limit := 10, num_lanes := 2
    lane_dirs := [[.through], [.through]], coords := [(1, 0), (1, -1)], end_node := 8 }

/-- C3 vehicle: lane 0 (which forbids the pending left turn), one tick from a
granted transition onto `stB3`. -/
def v3c : Vehicle :=
  baseVehicle stA3 (fun i => if i = 2 then stB3 else stA3) (fun _ => some interAllow)
    [1, 2] 0 9 0

/-- C7 current street: two lanes both permitting `through`, heading east. -/
def stA7 : Street :=
  { id := 1, length := 10, speed_limit := 10, num_lanes := 2
    lane_dirs := [[.through], [.through]], coords := [(0, 0), (1, 0)], end_node := 7 }

/-- C7 next street: a single lane, straight ahead, so a transitioning vehicle's
lane index is clamped from 1 to 0. -/
def stB7 : Street :=
  { id := 2, length := 50, speed_limit := 10, num_lanes := 1
    lane_dirs := [[.through]], coords := [(1, 0), (2, 0)], end_node := 8 }

/-- C7 vehicle: lane 1 with a pending `through` its lane permits, one tick from
a granted transition onto the single-lane `stB7`. -/
def v7c : Vehicle :=
  baseVehicle stA7 (fun i => if i = 2 then stB7 else stA7) (fun _ => some interAllow)
    [1, 2] 1 9 0

/-- C5 street: long enough that no end-of-segment logic interferes. -/
def st5 : Street :=
  { id := 1, length := 100, speed_limit := 10, num_lanes := 1
    lane_dirs := [[.through]], coords := [(0, 0), (1, 0)], end_node := 7 }

/-- C5 leader: same street, same lane, 12 units ahead (gap 7 below the
time-headway margin 10 of the follower). -/
def l5 : Vehicle := baseVehicle st5 (fun _ => st5) (fun _ => none) [1] 0 12 0

/-- C5 follower at speed 10. -/
def v5 : Vehicle := baseVehicle st5 (fun _ => st5) (fun _ => none) [1] 0 0 10

/-- C6 current street: last edge heading north (angle π/2). -/
def stN : Street :=
  { id := 1, length := 10, speed_limit := 10, num_lanes := 1
    lane_dirs := [[.through]], coords := [(0, 0), (0, 1)], end_node := 7 }

/-- C6 next street: first edge heading south (angle −π/2), giving a raw
heading difference of exactly −180 degrees. -/
def stS : Street :=
  { id := 2, length := 10, speed_limit := 10, num_lanes := 1
    lane_dirs := [[.through]], coords := [(0, 1), (0, 0)], end_node := 8 }

/-- C6 vehicle heading into the exact U-turn. -/
def v6c : Vehicle :=
  baseVehicle stN (fun i => if i = 2 then stS else stN) (fun _ => some interAllow)
    [1, 2] 0 0 0

/-- C8 fixture: a street that rejects every placement batch (zero capacity). -/
def rejectingStreet : FleetStreet := ⟨fun _ => false⟩

/-! ### Characterization of the update branches -/

theorem Vehicle.update_eq (v : Vehicle) (dt : ℚ) (leader : Option Vehicle) :
    v.update dt leader = v.updateAux dt leader v.nextTurnDirection := rfl

theorem Vehicle.updateAux_of_done (v : Vehicle) (dt : ℚ) (leader : Option Vehicle)
    (turn_dir : Option Turn) (h : v.done = true) :
    v.updateAux dt leader turn_dir = v := by
  unfold Vehicle.updateAux
  rw [if_pos h]

theorem Vehicle.updateAux_commit (v : Vehicle) (dt : ℚ) (leader : Option Vehicle)
    (turn_dir : Option Turn) (h : v.done = false)
    (h2 : v.newPos dt leader turn_dir < v.current_street.length) :
    v.updateAux dt leader turn_dir =
      { v with lane_index := v.laneAfterChange turn_dir
               speed := v.newSpeed dt leader turn_dir
               position_s := v.newPos dt leader turn_dir } := by
  have h2x : v.position_s + v.newSpeed dt leader turn_dir * dt < v.current_street.length := h2
  unfold Vehicle.updateAux
  rw [if_neg (by simp [h])]
  dsimp only
  rw [if_neg (not_le.mpr h2x)]
  rfl

theorem Vehicle.updateAux_exit (v : Vehicle) (dt : ℚ) (leader : Option Vehicle)
    (turn_dir : Option Turn) (h : v.done = false)
    (h2 : v.current_street.length ≤ v.newPos dt leader turn_dir)
    (h3 : v.intersections_map v.current_street.end_node = none) :
    v.updateAux dt leader turn_dir =
      { v with lane_index := v.laneAfterChange turn_dir, done := true } := by
  have h2x : v.current_street.length ≤ v.position_s + v.newSpeed dt leader turn_dir * dt := h2
  unfold Vehicle.updateAux
  rw [if_neg (by simp [h])]
  dsimp only
  rw [if_pos h2x, h3]

theorem Vehicle.updateAux_denied (v : Vehicle) (dt : ℚ) (leader : Option Vehicle)
    (turn_dir : Option Turn) (inter : Intersection) (h : v.done = false)
    (h2 : v.current_street.length ≤ v.newPos dt leader turn_dir)
    (h3 : v.intersections_map v.current_street.end_node = some inter)
    (h4 : inter.can_vehicle_enter v.current_street.id (v.laneAfterChange turn_dir) = false) :
    v.updateAux dt leader turn_dir =
      { v with lane_index := v.laneAfterChange turn_dir, speed := 0,
               position_s := v.current_street.length } := by
  have h2x : v.current_street.length ≤ v.position_s + v.newSpeed dt leader turn_dir * dt := h2
  unfold Vehicle.updateAux
  rw [if_neg (by simp [h])]
  dsimp only
  rw [if_pos h2x, h3]
  dsimp only
  rw [if_pos h4]

theorem Vehicle.updateAux_finish (v : Vehicle) (dt : ℚ) (leader : Option Vehicle)
    (turn_dir : Option Turn) (inter : Intersection) (h : v.done = false)
    (h2 : v.current_street.length ≤ v.newPos dt leader turn_dir)
    (h3 : v.intersections_map v.current_street.end_node = some inter)
    (h4 : inter.can_vehicle_enter v.current_street.id (v.laneAfterChange turn_dir) = true)
    (h5 : v.route_streets.length ≤ v.route_index + 1) :
    v.updateAux dt leader turn_dir =
      { v with lane_index := v.laneAfterChange turn_dir,
               route_index := v.route_index + 1, done := true } := by
  have h2x : v.current_street.length ≤ v.position_s + v.newSpeed dt leader turn_dir * dt := h2
  unfold Vehicle.updateAux
  rw [if_neg (by simp [h])]
  dsimp only
  rw [if_pos h2x, h3]
  dsimp only
  rw [if_neg (by simp [h4]), if_pos h5]

theorem Vehicle.updateAux_advance (v : Vehicle) (dt : ℚ) (leader : Option Vehicle)
    (turn_dir : Option Turn) (inter : Intersection) (h : v.done = false)
    (h2 : v.current_street.length ≤ v.newPos dt leader turn_dir)
    (h3 : v.intersections_map v.current_street.end_node = some inter)
    (h4 : inter.can_vehicle_enter v.current_street.id (v.laneAfterChange turn_dir) = true)
    (h5 : v.route_index + 1 < v.route_streets.length) :
    v.updateAux dt leader turn_dir =
      { v with current_street := v.streets_map (v.route_streets.getD (v.route_index + 1) 0)
               lane_index := min (v.laneAfterChange turn_dir)
                 ((v.streets_map (v.route_streets.getD (v.route_index + 1) 0)).num_lanes - 1)
               position_s := 0
               speed := 0
               base_speed_limit :=
                 (v.streets_map (v.route_streets.getD (v.route_index + 1) 0)).speed_limit *
                   v.speed_factor
               route_index := v.route_index + 1 } := by
  have h2x : v.current_street.length ≤ v.position_s + v.newSpeed dt leader turn_dir * dt := h2
  unfold Vehicle.updateAux
  rw [if_neg (by simp [h])]
  dsimp only
  rw [if_pos h2x, h3]
  dsimp only
  rw [if_neg (by simp [h4]), if_neg (not_le.mpr h5)]

/-! ### Helper lemmas: lane change, atan2, fixture turn classifications -/

theorem Vehicle.laneAfterChange_of_allowed (v : Vehicle) (t : Turn)
    (h : laneAllowsTurn v.current_street v.lane_index t = true) :
    v.laneAfterChange (some t) = v.lane_index := by
  unfold Vehicle.laneAfterChange
  split_ifs with h1 <;> simp [h]

theorem atan2_smul (k y x : ℝ) (hk : 0 < k) : atan2 (k * y) (k * x) = atan2 y x := by
  have hdiv : k * y / (k * x) = y / x := mul_div_mul_left y x (ne_of_gt hk)
  unfold atan2
  split_ifs <;> first
    | rfl
    | (exfalso; nlinarith)
    | rw [hdiv]

theorem neg_pi_lt_atan2 (y x : ℝ) : -Real.pi < atan2 y x := by
  have hpi := Real.pi_pos
  have ha1 := Real.arctan_lt_pi_div_two (y / x)
  have ha2 := Real.neg_pi_div_two_lt_arctan (y / x)
  unfold atan2
  split_ifs with h1 h2 h3 h4 h5
  · linarith
  · linarith
  · have hy : y < 0 := not_le.mp h3
    have hq : 0 < y / x := div_pos_iff.mpr (Or.inr ⟨hy, h2⟩)
    have h0 : 0 < Real.arctan (y / x) := by
      have hmono := Real.arctan_strictMono hq
      rwa [Real.arctan_zero] at hmono
    linarith
  · linarith
  · linarith
  · linarith

theorem atan2_le_pi (y x : ℝ) : atan2 y x ≤ Real.pi := by
  have hpi := Real.pi_pos
  have ha1 := Real.arctan_lt_pi_div_two (y / x)
  have ha2 := Real.neg_pi_div_two_lt_arctan (y / x)
  unfold atan2
  split_ifs with h1 h2 h3 h4 h5
  · linarith
  · have hq : y / x ≤ 0 := div_nonpos_of_nonneg_of_nonpos h3 h2.le
    have h0 : Real.arctan (y / x) ≤ 0 := by
      calc Real.arctan (y / x) ≤ Real.arctan 0 := Real.arctan_strictMono.monotone hq
        _ = 0 := Real.arctan_zero
    linarith
  · linarith
  · linarith
  · linarith
  · linarith

theorem atan2_zero_one : atan2 0 1 = 0 := by
  norm_num [atan2, Real.arctan_zero]

theorem atan2_one_zero : atan2 1 0 = Real.pi / 2 := by
  norm_num [atan2]

theorem atan2_neg_one_zero : atan2 (-1) 0 = -(Real.pi / 2) := by
  norm_num [atan2]

theorem headingDiff_A3_B3 : headingDiff stA3.coords stB3.coords = -90 := by
  norm_num [headingDiff, stA3, stB3, List.getD]
  rw [atan2_neg_one_zero, atan2_zero_one, div_eq_iff Real.pi_ne_zero]
  ring

theorem headingDiff_A7_B7 : headingDiff stA7.coords stB7.coords = 0 := by
  norm_num [headingDiff, stA7, stB7, List.getD]

theorem headingDiff_N_S : headingDiff stN.coords stS.coords = -180 := by
  norm_num [headingDiff, stN, stS, List.getD]
  rw [atan2_neg_one_zero, atan2_one_zero, div_eq_iff Real.pi_ne_zero]
  ring

theorem turn_A3_B3 : turnFromPolylines stA3.coords stB3.coords = Turn.left := by
  unfold turnFromPolylines
  rw [headingDiff_A3_B3]
  norm_num [normalizeDeg]

theorem turn_A7_B7 : turnFromPolylines stA7.coords stB7.coords = Turn.through := by
  unfold turnFromPolylines
  rw [headingDiff_A7_B7]
  norm_num [normalizeDeg]

theorem turn_N_S : turnFromPolylines stN.coords stS.coords = Turn.left := by
  unfold turnFromPolylines
  rw [headingDiff_N_S]
  norm_num [normalizeDeg]

theorem specTurn_N_S : specTurnFromPolylines stN.coords stS.coords = Turn.right := by
  unfold specTurnFromPolylines
  rw [headingDiff_N_S]
  norm_num [specNormalizeDeg]

theorem nextTurn_v3c : v3c.nextTurnDirection = some Turn.left := by
  have h : v3c.streets_map (v3c.route_streets.getD (v3c.route_index + 1) 0) = stB3 := by
    norm_num [v3c, baseVehicle, List.getD]
  unfold Vehicle.nextTurnDirection
  rw [h, if_neg (by norm_num [v3c, baseVehicle])]
  rw [show v3c.current_street = stA3 from rfl]
  dsimp only
  rw [turn_A3_B3]

theorem nextTurn_v7c : v7c.nextTurnDirection = some Turn.through := by
  have h : v7c.streets_map (v7c.route_streets.getD (v7c.route_index + 1) 0) = stB7 := by
    norm_num [v7c, baseVehicle, List.getD]
  unfold Vehicle.nextTurnDirection
  rw [h, if_neg (by norm_num [v7c, baseVehicle])]
  rw [show v7c.current_street = stA7 from rfl]
  dsimp only
  rw [turn_A7_B7]

theorem nextTurn_v6c : v6c.nextTurnDirection = some Turn.left := by
  have h : v6c.streets_map (v6c.route_streets.getD (v6c.route_index + 1) 0) = stS := by
    norm_num [v6c, baseVehicle, List.getD]
  unfold Vehicle.nextTurnDirection
  rw [h, if_neg (by norm_num [v6c, baseVehicle])]
  rw [show v6c.current_street = stN from rfl]
  dsimp only
  rw [turn_N_S]

theorem specNextTurn_v6c : v6c.specNextTurnDirection = some Turn.right := by
  have h : v6c.streets_map (v6c.route_streets.getD (v6c.route_index + 1) 0) = stS := by
    norm_num [v6c, baseVehicle, List.getD]
  unfold Vehicle.specNextTurnDirection
  rw [h, if_neg (by norm_num [v6c, baseVehicle])]
  rw [show v6c.current_street = stN from rfl]
  dsimp only
  rw [specTurn_N_S]

/-! ### Claim C4 -/

/-- C4, counterexample: at the boundary `new position = segment length` the
claim fails.  Vehicle `v4c` (position 8, one tick advancing 2 on a length-10
street with no end intersection) has a new position of exactly the segment
length — which "does not exceed" it — yet the update marks the vehicle
terminal and leaves position and speed uncommitted. -/
theorem no_transition_claim_counterexample :
    v4c.done = false ∧
    v4c.newPos 1 none v4c.nextTurnDirection ≤ v4c.current_street.length ∧
    (v4c.update 1 none).done = true ∧
    (v4c.update 1 none).position_s ≠ v4c.newPos 1 none v4c.nextTurnDirection := by
  have hnt : v4c.nextTurnDirection = none := by decide
  have hreach : v4c.current_street.length ≤ v4c.newPos 1 none none := by
    norm_num [Vehicle.newPos, Vehicle.newSpeed, Vehicle.accelAfterLight,
      Vehicle.accelAfterLeader, Vehicle.laneAfterChange, Vehicle.finalLimit,
      v4c, baseVehicle, stEast]
  have hu : v4c.update 1 none =
      { v4c with lane_index := v4c.laneAfterChange none, done := true } := by
    rw [Vehicle.update_eq, hnt]
    exact Vehicle.updateAux_exit v4c 1 none none rfl hreach rfl
  refine ⟨rfl, ?_, ?_, ?_⟩
  · rw [hnt]
    norm_num [Vehicle.newPos, Vehicle.newSpeed, Vehicle.accelAfterLight,
      Vehicle.accelAfterLeader, Vehicle.laneAfterChange, Vehicle.finalLimit,
      v4c, baseVehicle, stEast]
  · rw [hu]
  · rw [hu, hnt]
    norm_num [Vehicle.newPos, Vehicle.newSpeed, Vehicle.accelAfterLight,
      Vehicle.accelAfterLeader, Vehicle.laneAfterChange, Vehicle.finalLimit,
      v4c, baseVehicle, stEast]

/-- C4, amended: when the computed new position stays strictly below the
segment length, the update commits the new speed and position and neither a
segment transition, nor a route-cursor change, nor a terminal marking
occurs. -/
theorem strict_commit_amended (v : Vehicle) (dt : ℚ) (leader : Option Vehicle)
    (hdone : v.done = false)
    (hlt : v.newPos dt leader v.nextTurnDirection < v.current_street.length) :
    (v.update dt leader).speed = v.newSpeed dt leader v.nextTurnDirection ∧
    (v.update dt leader).position_s = v.newPos dt leader v.nextTurnDirection ∧
    (v.update dt leader).current_street = v.current_street ∧
    (v.update dt leader).route_index = v.route_index ∧
    (v.update dt leader).done = false := by
  rw [Vehicle.update_eq, Vehicle.updateAux_commit v dt leader _ hdone hlt]
  exact ⟨rfl, rfl, rfl, rfl, hdone⟩

/-- C4 witness: the amended theorem applied to the concrete vehicle `v1w`. -/
theorem strict_commit_amended_witness :
    (v1w.update 1 none).speed = v1w.newSpeed 1 none v1w.nextTurnDirection ∧
    (v1w.update 1 none).position_s = v1w.newPos 1 none v1w.nextTurnDirection ∧
    (v1w.update 1 none).current_street = v1w.current_street ∧
    (v1w.update 1 none).route_index = v1w.route_index ∧
    (v1w.update 1 none).done = false :=
  strict_commit_amended v1w 1 none rfl (by
    rw [(by decide : v1w.nextTurnDirection = none)]
    norm_num [Vehicle.newPos, Vehicle.newSpeed, Vehicle.accelAfterLight,
      Vehicle.accelAfterLeader, Vehicle.laneAfterChange, Vehicle.finalLimit,
      v1w, baseVehicle, stEast])

/-! ### Claim C2 -/

/-- C2, counterexample: vehicle `v2c` (position 9, speed 20) overshoots its
length-10 street, the end intersection denies admission, and the post-tick
position is the clamped segment length 10, not the pre-tick position 9 —
refuting "the same position as the pre-tick state". -/
theorem denied_admission_claim_counterexample :
    v2c.done = false ∧
    v2c.current_street.length ≤ v2c.newPos 1 none v2c.nextTurnDirection ∧
    (v2c.intersections_map v2c.current_street.end_node).map
      (fun i => i.can_vehicle_enter v2c.current_street.id
        (v2c.laneAfterChange v2c.nextTurnDirection)) = some false ∧
    (v2c.update 1 none).position_s ≠ v2c.position_s := by
  have hnt : v2c.nextTurnDirection = none := by decide
  have hreach : v2c.current_street.length ≤ v2c.newPos 1 none none := by
    norm_num [Vehicle.newPos, Vehicle.newSpeed, Vehicle.accelAfterLight,
      Vehicle.accelAfterLeader, Vehicle.laneAfterChange, Vehicle.finalLimit,
      v2c, baseVehicle, stEast, interDeny]
  have hu : v2c.update 1 none =
      { v2c with lane_index := v2c.laneAfterChange none, speed := 0,
                 position_s := v2c.current_street.length } := by
    rw [Vehicle.update_eq, hnt]
    exact Vehicle.updateAux_denied v2c 1 none none interDeny rfl hreach rfl rfl
  refine ⟨rfl, ?_, ?_, ?_⟩
  · rw [hnt]; exact hreach
  · rw [hnt]; decide
  · rw [hu]
    norm_num [v2c, baseVehicle, stEast]

/-- C2, amended: a vehicle denied admission at its segment end keeps its
segment, route cursor and non-terminal status, has speed 0, position equal to
the segment length (the clamped value, not the pre-tick position), and lane
index equal to the value after the proactive lane-change step (which equals
the pre-tick lane index whenever that step does not fire). -/
theorem denied_admission_freeze (v : Vehicle) (dt : ℚ) (leader : Option Vehicle)
    (inter : Intersection) (hdone : v.done = false)
    (hreach : v.current_street.length ≤ v.newPos dt leader v.nextTurnDirection)
    (hint : v.intersections_map v.current_street.end_node = some inter)
    (hdeny : inter.can_vehicle_enter v.current_street.id
      (v.laneAfterChange v.nextTurnDirection) = false) :
    (v.update dt leader).current_street = v.current_street ∧
    (v.update dt leader).lane_index = v.laneAfterChange v.nextTurnDirection ∧
    (v.update dt leader).position_s = v.current_street.length ∧
    (v.update dt leader).speed = 0 ∧
    (v.update dt leader).route_index = v.route_index ∧
    (v.update dt leader).done = false := by
  rw [Vehicle.update_eq, Vehicle.updateAux_denied v dt leader _ inter hdone hreach hint hdeny]
  exact ⟨rfl, rfl, rfl, rfl, rfl, hdone⟩

/-- C2 witness: the amended theorem applied to the concrete vehicle `v2c`. -/
theorem denied_admission_freeze_witness :
    (v2c.update 1 none).current_street = v2c.current_street ∧
    (v2c.update 1 none).lane_index = v2c.laneAfterChange v2c.nextTurnDirection ∧
    (v2c.update 1 none).position_s = v2c.current_street.length ∧
    (v2c.update 1 none).speed = 0 ∧
    (v2c.update 1 none).route_index = v2c.route_index ∧
    (v2c.update 1 none).done = false :=
  denied_admission_freeze v2c 1 none interDeny rfl
    (by
      rw [(by decide : v2c.nextTurnDirection = none)]
      norm_num [Vehicle.newPos, Vehicle.newSpeed, Vehicle.accelAfterLight,
        Vehicle.accelAfterLeader, Vehicle.laneAfterChange, Vehicle.finalLimit,
        v2c, baseVehicle, stEast, interDeny])
    rfl
    (by rw [(by decide : v2c.nextTurnDirection = none)]; decide)

/-! ### Claim C3 -/

/-- C3, counterexample: vehicle `v3c` starts the tick in lane 0, but its
pending left turn is forbidden by lane 0, so the proactive lane change moves
it to lane 1 before the granted transition; the committed lane is
`min(1, next.lanes − 1) = 1`, not `min(old lane 0, next.lanes − 1) = 0`. -/
theorem granted_transition_claim_counterexample :
    v3c.done = false ∧
    v3c.current_street.length ≤ v3c.newPos 1 none v3c.nextTurnDirection ∧
    (v3c.intersections_map v3c.current_street.end_node).map
      (fun i => i.can_vehicle_enter v3c.current_street.id
        (v3c.laneAfterChange v3c.nextTurnDirection)) = some true ∧
    v3c.route_index + 1 < v3c.route_streets.length ∧
    (v3c.update 1 none).lane_index ≠
      min v3c.lane_index
        ((v3c.streets_map (v3c.route_streets.getD (v3c.route_index + 1) 0)).num_lanes - 1) := by
  have hreach : v3c.current_street.length ≤ v3c.newPos 1 none (some Turn.left) := by
    norm_num [Vehicle.newPos, Vehicle.newSpeed, Vehicle.accelAfterLight,
      Vehicle.accelAfterLeader, Vehicle.laneAfterChange, Vehicle.finalLimit,
      laneAllowsTurn, v3c, baseVehicle, stA3, interAllow]
  refine ⟨rfl, ?_, ?_, by decide, ?_⟩
  · rw [nextTurn_v3c]; exact hreach
  · rw [nextTurn_v3c]; rfl
  · rw [Vehicle.update_eq, nextTurn_v3c,
      Vehicle.updateAux_advance v3c 1 none (some Turn.left) interAllow rfl hreach rfl rfl
        (by decide)]
    norm_num [Vehicle.laneAfterChange, laneAllowsTurn, v3c, baseVehicle, stA3, stB3,
      List.getD]
    decide

/-- C3, amended: a granted end-of-segment transition with an onward route
entry commits position 0, speed 0, the route's next segment, the recomputed
cached base speed limit, and a lane index equal to
`min(lane after the proactive lane-change step, next.lanes − 1)` — the lane
index the vehicle holds at the moment of the transition, which equals the
pre-tick lane index whenever the lane-change step did not fire. -/
theorem granted_transition_amended (v : Vehicle) (dt : ℚ) (leader : Option Vehicle)
    (inter : Intersection) (hdone : v.done = false)
    (hreach : v.current_street.length ≤ v.newPos dt leader v.nextTurnDirection)
    (hint : v.intersections_map v.current_street.end_node = some inter)
    (hgrant : inter.can_vehicle_enter v.current_street.id
      (v.laneAfterChange v.nextTurnDirection) = true)
    (hroute : v.route_index + 1 < v.route_streets.length) :
    (v.update dt leader).current_street =
      v.streets_map (v.route_streets.getD (v.route_index + 1) 0) ∧
    (v.update dt leader).position_s = 0 ∧
    (v.update dt leader).speed = 0 ∧
    (v.update dt leader).lane_index =
      min (v.laneAfterChange v.nextTurnDirection)
        ((v.streets_map (v.route_streets.getD (v.route_index + 1) 0)).num_lanes - 1) ∧
    (v.update dt leader).base_speed_limit =
      (v.streets_map (v.route_streets.getD (v.route_index + 1) 0)).speed_limit *
        v.speed_factor ∧
    (v.update dt leader).route_index = v.route_index + 1 := by
  rw [Vehicle.update_eq,
    Vehicle.updateAux_advance v dt leader _ inter hdone hreach hint hgrant hroute]
  exact ⟨rfl, rfl, rfl, rfl, rfl, rfl⟩

/-- C3 witness: the amended theorem applied to the concrete vehicle `v3c`. -/
theorem granted_transition_amended_witness :
    (v3c.update 1 none).current_street =
      v3c.streets_map (v3c.route_streets.getD (v3c.route_index + 1) 0) ∧
    (v3c.update 1 none).position_s = 0 ∧
    (v3c.update 1 none).speed = 0 ∧
    (v3c.update 1 none).lane_index =
      min (v3c.laneAfterChange v3c.nextTurnDirection)
        ((v3c.streets_map (v3c.route_streets.getD (v3c.route_index + 1) 0)).num_lanes - 1) ∧
    (v3c.update 1 none).base_speed_limit =
      (v3c.streets_map (v3c.route_streets.getD (v3c.route_index + 1) 0)).speed_limit *
        v3c.speed_factor ∧
    (v3c.update 1 none).route_index = v3c.route_index + 1 :=
  granted_transition_amended v3c 1 none interAllow rfl
    (by
      rw [nextTurn_v3c]
      norm_num [Vehicle.newPos, Vehicle.newSpeed, Vehicle.accelAfterLight,
        Vehicle.accelAfterLeader, Vehicle.laneAfterChange, Vehicle.finalLimit,
        laneAllowsTurn, v3c, baseVehicle, stA3, interAllow])
    rfl rfl (by decide)

/-! ### Claim C7 -/

/-- C7, counterexample: vehicle `v7c` has a pending `through` that its lane 1
permits, so no proactive lane change fires; nevertheless the granted
transition onto the single-lane next street clamps its lane index from 1 to
0 within the same tick, refuting "must never change lane index that tick". -/
theorem allowed_turn_lane_claim_counterexample :
    v7c.done = false ∧
    v7c.nextTurnDirection = some Turn.through ∧
    laneAllowsTurn v7c.current_street v7c.lane_index Turn.through = true ∧
    (v7c.update 1 none).lane_index ≠ v7c.lane_index := by
  have hreach : v7c.current_street.length ≤ v7c.newPos 1 none (some Turn.through) := by
    norm_num [Vehicle.newPos, Vehicle.newSpeed, Vehicle.accelAfterLight,
      Vehicle.accelAfterLeader, Vehicle.laneAfterChange, Vehicle.finalLimit,
      laneAllowsTurn, v7c, baseVehicle, stA7, interAllow]
  refine ⟨rfl, nextTurn_v7c, by decide, ?_⟩
  rw [Vehicle.update_eq, nextTurn_v7c,
    Vehicle.updateAux_advance v7c 1 none (some Turn.through) interAllow rfl hreach rfl rfl
      (by decide)]
  norm_num [Vehicle.laneAfterChange, laneAllowsTurn, v7c, baseVehicle, stA7, stB7,
    List.getD]

/-- C7, amended: when the pending turn is permitted by the current lane, the
update leaves the lane index unchanged, except that a granted segment
transition in the same tick clamps it to
`min(pre-tick lane, next segment's lane count − 1)`. -/
theorem allowed_turn_lane_stability (v : Vehicle) (dt : ℚ) (leader : Option Vehicle)
    (t : Turn) (hdone : v.done = false)
    (ht : v.nextTurnDirection = some t)
    (hallow : laneAllowsTurn v.current_street v.lane_index t = true) :
    (v.update dt leader).lane_index = v.lane_index ∨
    ((v.update dt leader).current_street =
        v.streets_map (v.route_streets.getD (v.route_index + 1) 0) ∧
      (v.update dt leader).lane_index =
        min v.lane_index ((v.update dt leader).current_street.num_lanes - 1)) := by
  have hlane : v.laneAfterChange v.nextTurnDirection = v.lane_index := by
    rw [ht]
    exact v.laneAfterChange_of_allowed t hallow
  rw [Vehicle.update_eq]
  by_cases hreach : v.current_street.length ≤ v.newPos dt leader v.nextTurnDirection
  · cases hint : v.intersections_map v.current_street.end_node with
    | none =>
      left
      rw [Vehicle.updateAux_exit v dt leader _ hdone hreach hint]
      exact hlane
    | some inter =>
      by_cases hdeny : inter.can_vehicle_enter v.current_street.id
          (v.laneAfterChange v.nextTurnDirection) = false
      · left
        rw [Vehicle.updateAux_denied v dt leader _ inter hdone hreach hint hdeny]
        exact hlane
      · have hgrant : inter.can_vehicle_enter v.current_street.id
            (v.laneAfterChange v.nextTurnDirection) = true := by
          simpa using hdeny
        by_cases hroute : v.route_streets.length ≤ v.route_index + 1
        · left
          rw [Vehicle.updateAux_finish v dt leader _ inter hdone hreach hint hgrant hroute]
          exact hlane
        · right
          rw [Vehicle.updateAux_advance v dt leader _ inter hdone hreach hint hgrant
            (not_le.mp hroute)]
          refine ⟨rfl, ?_⟩
          show min (v.laneAfterChange v.nextTurnDirection) _ = min v.lane_index _
          rw [hlane]
  · left
    rw [Vehicle.updateAux_commit v dt leader _ hdone (not_le.mp hreach)]
    exact hlane

/-- C7 witness: the amended theorem applied to the concrete vehicle `v7c`. -/
theorem allowed_turn_lane_stability_witness :
    (v7c.update 1 none).lane_index = v7c.lane_index ∨
    ((v7c.update 1 none).current_street =
        v7c.streets_map (v7c.route_streets.getD (v7c.route_index + 1) 0) ∧
      (v7c.update 1 none).lane_index =
        min v7c.lane_index ((v7c.update 1 none).current_street.num_lanes - 1)) :=
  allowed_turn_lane_stability v7c 1 none Turn.through rfl nextTurn_v7c (by decide)

/-! ### Claim C1 -/

/-- C1: for a vehicle whose state satisfies `0 ≤ position ≤ segment length`
and `speed ≥ 0`, any update with `dt > 0` preserves the invariant against the
possibly new current segment.  The network-side hypothesis `hnet` records the
data model's requirement that segment lengths are nonnegative (needed when
the vehicle transitions to position 0 of the next segment). -/
theorem update_preserves_position_speed_invariant (v : Vehicle) (dt : ℚ)
    (leader : Option Vehicle)
    (hpos0 : 0 ≤ v.position_s) (hpos1 : v.position_s ≤ v.current_street.length)
    (hspeed : 0 ≤ v.speed) (hdt : 0 < dt)
    (hnet : ∀ i : ℤ, 0 ≤ (v.streets_map i).length) :
    0 ≤ (v.update dt leader).position_s ∧
    (v.update dt leader).position_s ≤ (v.update dt leader).current_street.length ∧
    0 ≤ (v.update dt leader).speed := by
  rw [Vehicle.update_eq]
  by_cases hdone : v.done = true
  · rw [Vehicle.updateAux_of_done v dt leader _ hdone]
    exact ⟨hpos0, hpos1, hspeed⟩
  · have hdone' : v.done = false := by simpa using hdone
    have hns : 0 ≤ v.newSpeed dt leader v.nextTurnDirection := le_max_left 0 _
    by_cases hreach : v.current_street.length ≤ v.newPos dt leader v.nextTurnDirection
    · cases hint : v.intersections_map v.current_street.end_node with
      | none =>
        rw [Vehicle.updateAux_exit v dt leader _ hdone' hreach hint]
        exact ⟨hpos0, hpos1, hspeed⟩
      | some inter =>
        by_cases hdeny : inter.can_vehicle_enter v.current_street.id
            (v.laneAfterChange v.nextTurnDirection) = false
        · rw [Vehicle.updateAux_denied v dt leader _ inter hdone' hreach hint hdeny]
          exact ⟨le_trans hpos0 hpos1, le_refl _, le_refl _⟩
        · have hgrant : inter.can_vehicle_enter v.current_street.id
              (v.laneAfterChange v.nextTurnDirection) = true := by
            simpa using hdeny
          by_cases hroute : v.route_streets.length ≤ v.route_index + 1
          · rw [Vehicle.updateAux_finish v dt leader _ inter hdone' hreach hint hgrant hroute]
            exact ⟨hpos0, hpos1, hspeed⟩
          · rw [Vehicle.updateAux_advance v dt leader _ inter hdone' hreach hint hgrant
              (not_le.mp hroute)]
            exact ⟨le_refl 0, hnet _, le_refl 0⟩
    · rw [Vehicle.updateAux_commit v dt leader _ hdone' (not_le.mp hreach)]
      refine ⟨?_, (not_le.mp hreach).le, hns⟩
      show 0 ≤ v.position_s + v.newSpeed dt leader v.nextTurnDirection * dt
      exact add_nonneg hpos0 (mul_nonneg hns hdt.le)

/-- C1 witness: the invariant theorem applied to the concrete vehicle `v1w`. -/
theorem update_preserves_position_speed_invariant_witness :
    0 ≤ (v1w.update 1 none).position_s ∧
    (v1w.update 1 none).position_s ≤ (v1w.update 1 none).current_street.length ∧
    0 ≤ (v1w.update 1 none).speed :=
  update_preserves_position_speed_invariant v1w 1 none (by decide) (by decide)
    (by decide) (by decide) (fun i => by norm_num [v1w, baseVehicle, stEast])

/-! ### Claim C5 -/

/-- C5: with a same-segment same-lane leader whose gap
`leader.position − position − 5` is below the time-headway margin
`speed × reaction_time`, the desired acceleration is the hard-braking value
`-max_decel` (both after the collision-avoidance step and after the
traffic-light step, which can only reaffirm it), and the post-tick speed does
not exceed the pre-tick speed.  The hypotheses `hsp` and `hdec` record the
vehicle-state invariant `speed ≥ 0` and the constructor's nonnegative
deceleration bound. -/
theorem headway_braking_decelerates (v : Vehicle) (dt : ℚ) (l : Vehicle)
    (hdone : v.done = false) (hdt : 0 < dt)
    (hst : l.current_street_id = v.current_street_id)
    (hln : l.lane_index = v.lane_index)
    (hgap : l.position_s - v.position_s - 5 < v.speed * v.reaction_time)
    (hsp : 0 ≤ v.speed) (hdec : 0 ≤ v.max_decel) :
    v.accelAfterLeader (some l) = -v.max_decel ∧
    v.accelAfterLight (some l) (v.laneAfterChange v.nextTurnDirection) = -v.max_decel ∧
    (v.update dt (some l)).speed ≤ v.speed := by
  have h1 : v.accelAfterLeader (some l) = -v.max_decel := by
    unfold Vehicle.accelAfterLeader
    dsimp only
    rw [if_pos ⟨hst, hln⟩, if_pos hgap]
  have h2 : ∀ lane1 : ℤ, v.accelAfterLight (some l) lane1 = -v.max_decel := by
    intro lane1
    unfold Vehicle.accelAfterLight
    split_ifs with hA
    · cases hI : v.intersections_map v.current_street.end_node with
      | none => simp [hI, h1]
      | some inter => simp [hI, h1]
    · exact h1
  have hbrake : v.newSpeed dt (some l) v.nextTurnDirection ≤ v.speed := by
    unfold Vehicle.newSpeed
    rw [h2]
    apply max_le hsp
    calc min (v.speed + -v.max_decel * dt) v.finalLimit
        ≤ v.speed + -v.max_decel * dt := min_le_left _ _
      _ ≤ v.speed := by nlinarith
  refine ⟨h1, h2 _, ?_⟩
  rw [Vehicle.update_eq]
  by_cases hreach : v.current_street.length ≤ v.newPos dt (some l) v.nextTurnDirection
  · cases hint : v.intersections_map v.current_street.end_node with
    | none =>
      rw [Vehicle.updateAux_exit v dt (some l) _ hdone hreach hint]
    | some inter =>
      by_cases hdeny : inter.can_vehicle_enter v.current_street.id
          (v.laneAfterChange v.nextTurnDirection) = false
      · rw [Vehicle.updateAux_denied v dt (some l) _ inter hdone hreach hint hdeny]
        exact hsp
      · have hgrant : inter.can_vehicle_enter v.current_street.id
            (v.laneAfterChange v.nextTurnDirection) = true := by
          simpa using hdeny
        by_cases hroute : v.route_streets.length ≤ v.route_index + 1
        · rw [Vehicle.updateAux_finish v dt (some l) _ inter hdone hreach hint hgrant hroute]
        · rw [Vehicle.updateAux_advance v dt (some l) _ inter hdone hreach hint hgrant
            (not_le.mp hroute)]
          exact hsp
  · rw [Vehicle.updateAux_commit v dt (some l) _ hdone (not_le.mp hreach)]
    exact hbrake

/-- C5 witness: the braking theorem applied to follower `v5` (speed 10) and
leader `l5` (12 units ahead, gap 7 below margin 10). -/
theorem headway_braking_decelerates_witness :
    v5.accelAfterLeader (some l5) = -v5.max_decel ∧
    v5.accelAfterLight (some l5) (v5.laneAfterChange v5.nextTurnDirection) =
      -v5.max_decel ∧
    (v5.update 1 (some l5)).speed ≤ v5.speed :=
  headway_braking_decelerates v5 1 l5 rfl (by decide) rfl rfl
    (by norm_num [v5, l5, baseVehicle]) (by decide) (by decide)

/-! ### Claim C10 -/

/-- C10: the cached base speed limit equals the current segment's speed limit
times the profile speed factor after construction, the invariant is preserved
by every update, and under it the effective ceiling
`min(limit × factor, cached)` always equals `limit × factor`. -/
theorem base_speed_limit_cached_invariant :
    (∀ (i : ℤ) (p : Profile) (st : Street) (ln : ℤ) (rt : List ℤ)
        (sm : ℤ → Street) (im : ℤ → Option Intersection),
      (Vehicle.init i p st ln rt sm im).base_speed_limit =
        (Vehicle.init i p st ln rt sm im).current_street.speed_limit *
          (Vehicle.init i p st ln rt sm im).speed_factor) ∧
    (∀ (v : Vehicle) (dt : ℚ) (leader : Option Vehicle),
      v.base_speed_limit = v.current_street.speed_limit * v.speed_factor →
      (v.update dt leader).base_speed_limit =
        (v.update dt leader).current_street.speed_limit *
          (v.update dt leader).speed_factor) ∧
    (∀ v : Vehicle,
      v.base_speed_limit = v.current_street.speed_limit * v.speed_factor →
      v.finalLimit = v.current_street.speed_limit * v.speed_factor) := by
  refine ⟨fun i p st ln rt sm im => rfl, ?_, ?_⟩
  · intro v dt leader hbase
    rw [Vehicle.update_eq]
    by_cases hdone : v.done = true
    · rw [Vehicle.updateAux_of_done v dt leader _ hdone]
      exact hbase
    · have hdone' : v.done = false := by simpa using hdone
      by_cases hreach : v.current_street.length ≤ v.newPos dt leader v.nextTurnDirection
      · cases hint : v.intersections_map v.current_street.end_node with
        | none =>
          rw [Vehicle.updateAux_exit v dt leader _ hdone' hreach hint]
          exact hbase
        | some inter =>
          by_cases hdeny : inter.can_vehicle_enter v.current_street.id
              (v.laneAfterChange v.nextTurnDirection) = false
          · rw [Vehicle.updateAux_denied v dt leader _ inter hdone' hreach hint hdeny]
            exact hbase
          · have hgrant : inter.can_vehicle_enter v.current_street.id
                (v.laneAfterChange v.nextTurnDirection) = true := by
              simpa using hdeny
            by_cases hroute : v.route_streets.length ≤ v.route_index + 1
            · rw [Vehicle.updateAux_finish v dt leader _ inter hdone' hreach hint hgrant
                hroute]
              exact hbase
            · rw [Vehicle.updateAux_advance v dt leader _ inter hdone' hreach hint hgrant
                (not_le.mp hroute)]
      · rw [Vehicle.updateAux_commit v dt leader _ hdone' (not_le.mp hreach)]
        exact hbase
  · intro v hbase
    unfold Vehicle.finalLimit
    rw [hbase]
    exact min_self _

/-- C10 witness: the invariant theorem's preservation and ceiling clauses
applied to the concrete vehicle `v1w`. -/
theorem base_speed_limit_cached_invariant_witness :
    (v1w.update 1 none).base_speed_limit =
      (v1w.update 1 none).current_street.speed_limit *
        (v1w.update 1 none).speed_factor ∧
    v1w.finalLimit = v1w.current_street.speed_limit * v1w.speed_factor :=
  ⟨base_speed_limit_cached_invariant.2.1 v1w 1 none
      (by norm_num [v1w, baseVehicle, stEast]),
    base_speed_limit_cached_invariant.2.2 v1w
      (by norm_num [v1w, baseVehicle, stEast])⟩

/-! ### Claim C8 -/

/-- C8: the `_create_vehicles` loop has no retry bound and no explicit
failure.  Against a network of zero aggregate capacity (one street rejecting
every batch) it makes no progress: after any number of iterations, under any
random stream, the remaining count is still 10, so the loop guard
`vehicle_count > 0` never turns false and the loop runs forever. -/
theorem fleet_loop_no_progress_on_zero_capacity :
    ∀ (oracle : ℕ → ℕ × ℕ) (n : ℕ), createRun [rejectingStreet] oracle n 10 = 10 := by
  intro oracle n
  induction n with
  | zero => rfl
  | succ m ih =>
    rw [createRun, ih]
    simp [createStep, rejectingStreet, Nat.mod_one, List.getD]

/-! ### Claim C6 -/

/-- C6, counterexample: for an exact U-turn (north then south; raw heading
difference −180°) the spec's normalization into (−180°, 180°] yields 180°
and classifies "right", but the code keeps −180° and classifies "left". -/
theorem turn_classification_claim_counterexample :
    v6c.specNextTurnDirection = some Turn.right ∧
    v6c.nextTurnDirection = some Turn.left :=
  ⟨specNextTurn_v6c, nextTurn_v6c⟩

/-- Degree conversion of a difference of two angles in (−π, π] stays within
(−360, 360). -/
theorem diff_deg_bounds (a1 a2 : ℝ) (h1 : -Real.pi < a1) (h2 : a1 ≤ Real.pi)
    (h3 : -Real.pi < a2) (h4 : a2 ≤ Real.pi) :
    -360 < (a2 - a1) * 180 / Real.pi ∧ (a2 - a1) * 180 / Real.pi < 360 := by
  have hpi := Real.pi_pos
  constructor
  · rw [lt_div_iff₀ hpi]
    nlinarith
  · rw [div_lt_iff₀ hpi]
    nlinarith

/-- The raw heading difference always lies in (−360, 360) degrees. -/
theorem headingDiff_bounds (c n : List (ℚ × ℚ)) :
    -360 < headingDiff c n ∧ headingDiff c n < 360 := by
  unfold headingDiff
  dsimp only
  exact diff_deg_bounds _ _ (neg_pi_lt_atan2 _ _) (atan2_le_pi _ _)
    (neg_pi_lt_atan2 _ _) (atan2_le_pi _ _)

/-- The code's one-pass normalization maps (−360, 360) into the closed
interval [−180, 180]. -/
theorem normalizeDeg_mem (d : ℝ) (h1 : -360 < d) (h2 : d < 360) :
    -180 ≤ normalizeDeg d ∧ normalizeDeg d ≤ 180 := by
  unfold normalizeDeg
  split_ifs with hA hB
  · constructor <;> linarith
  · constructor <;> linarith
  · push_neg at hA hB
    constructor <;> linarith

/-- C6, amended: the classification returns `none` exactly when the route has
no segment beyond the current one; otherwise the signed angular difference is
normalized into the closed interval [−180°, 180°] (by a single ±360°
adjustment; −180° is kept as −180°, not mapped to 180°), and the result is
"right" above 30°, "left" below −30°, "through" otherwise. -/
theorem turn_classification_amended (v : Vehicle) :
    (v.route_streets.length ≤ v.route_index + 1 → v.nextTurnDirection = none) ∧
    (v.route_index + 1 < v.route_streets.length →
      -180 ≤ normalizeDeg (headingDiff v.current_street.coords
        (v.streets_map (v.route_streets.getD (v.route_index + 1) 0)).coords) ∧
      normalizeDeg (headingDiff v.current_street.coords
        (v.streets_map (v.route_streets.getD (v.route_index + 1) 0)).coords) ≤ 180 ∧
      v.nextTurnDirection = some (
        if 30 < normalizeDeg (headingDiff v.current_street.coords
            (v.streets_map (v.route_streets.getD (v.route_index + 1) 0)).coords)
        then Turn.right
        else if normalizeDeg (headingDiff v.current_street.coords
            (v.streets_map (v.route_streets.getD (v.route_index + 1) 0)).coords) < -30
        then Turn.left
        else Turn.through)) := by
  constructor
  · intro h
    unfold Vehicle.nextTurnDirection
    rw [if_pos (by omega : v.route_streets.length - 1 ≤ v.route_index)]
  · intro h
    have hb := headingDiff_bounds v.current_street.coords
      (v.streets_map (v.route_streets.getD (v.route_index + 1) 0)).coords
    have hm := normalizeDeg_mem _ hb.1 hb.2
    refine ⟨hm.1, hm.2, ?_⟩
    unfold Vehicle.nextTurnDirection
    rw [if_neg (by omega : ¬ v.route_streets.length - 1 ≤ v.route_index)]
    rfl

/-- C6 witness: the amended characterization applied to the concrete vehicle
`v6c`, which has a next route segment. -/
theorem turn_classification_amended_witness :
    -180 ≤ normalizeDeg (headingDiff v6c.current_street.coords
      (v6c.streets_map (v6c.route_streets.getD (v6c.route_index + 1) 0)).coords) ∧
    normalizeDeg (headingDiff v6c.current_street.coords
      (v6c.streets_map (v6c.route_streets.getD (v6c.route_index + 1) 0)).coords) ≤ 180 ∧
    v6c.nextTurnDirection = some (
      if 30 < normalizeDeg (headingDiff v6c.current_street.coords
          (v6c.streets_map (v6c.route_streets.getD (v6c.route_index + 1) 0)).coords)
      then Turn.right
      else if normalizeDeg (headingDiff v6c.current_street.coords
          (v6c.streets_map (v6c.route_streets.getD (v6c.route_index + 1) 0)).coords) < -30
      then Turn.left
      else Turn.through) :=
  (turn_classification_amended v6c).2 (by decide)

/-! ### Claim C9 -/

/-- Mapping a function over a list commutes with `getD` at in-range indices
(with defaults that are never consulted). -/
theorem getD_map_of_lt (l : List (ℚ × ℚ)) (f : ℚ × ℚ → ℚ × ℚ) (i : ℕ)
    (hi : i < l.length) :
    (l.map f).getD i (0, 0) = f (l.getD i (0, 0)) := by
  rw [List.getD_eq_getElem l (0, 0) hi,
    List.getD_eq_getElem (l.map f) (0, 0) (by simpa using hi)]
  simp

/-- The raw heading difference is unchanged by any pointwise coordinate map
that preserves the `atan2` of edge deltas. -/
theorem headingDiff_map_eq (c n : List (ℚ × ℚ)) (hc : 2 ≤ c.length)
    (hn : 2 ≤ n.length) (f : ℚ × ℚ → ℚ × ℚ)
    (hf : ∀ p q : ℚ × ℚ,
      atan2 (((f q).2 : ℝ) - ((f p).2 : ℝ)) (((f q).1 : ℝ) - ((f p).1 : ℝ)) =
        atan2 ((q.2 : ℝ) - (p.2 : ℝ)) ((q.1 : ℝ) - (p.1 : ℝ))) :
    headingDiff (c.map f) (n.map f) = headingDiff c n := by
  unfold headingDiff
  rw [List.length_map,
    getD_map_of_lt c f (c.length - 2) (Nat.sub_lt (by omega) (by omega)),
    getD_map_of_lt c f (c.length - 1) (Nat.sub_lt (by omega) (by omega)),
    getD_map_of_lt n f 0 (by omega),
    getD_map_of_lt n f 1 (by omega)]
  dsimp only
  rw [hf, hf]

/-- C9: turn classification of a pair of polylines (each with at least two
points, as the data model requires) is invariant under translating all
coordinates by a common vector and under scaling all coordinates by a common
positive factor. -/
theorem turn_classification_translation_scale_invariant
    (c n : List (ℚ × ℚ)) (hc : 2 ≤ c.length) (hn : 2 ≤ n.length)
    (t : ℚ × ℚ) (k : ℚ) (hk : 0 < k) :
    turnFromPolylines (c.map fun p => (p.1 + t.1, p.2 + t.2))
        (n.map fun p => (p.1 + t.1, p.2 + t.2)) = turnFromPolylines c n ∧
    turnFromPolylines (c.map fun p => (k * p.1, k * p.2))
        (n.map fun p => (k * p.1, k * p.2)) = turnFromPolylines c n := by
  have htrans : headingDiff (c.map fun p => (p.1 + t.1, p.2 + t.2))
      (n.map fun p => (p.1 + t.1, p.2 + t.2)) = headingDiff c n := by
    apply headingDiff_map_eq c n hc hn
    intro p q
    have hy : ((q.1 + t.1 : ℚ) : ℝ) - ((p.1 + t.1 : ℚ) : ℝ) = (q.1 : ℝ) - (p.1 : ℝ) := by
      push_cast
      ring
    have hx : ((q.2 + t.2 : ℚ) : ℝ) - ((p.2 + t.2 : ℚ) : ℝ) = (q.2 : ℝ) - (p.2 : ℝ) := by
      push_cast
      ring
    rw [hx, hy]
  have hscale : headingDiff (c.map fun p => (k * p.1, k * p.2))
      (n.map fun p => (k * p.1, k * p.2)) = headingDiff c n := by
    apply headingDiff_map_eq c n hc hn
    intro p q
    have hy : ((k * q.2 : ℚ) : ℝ) - ((k * p.2 : ℚ) : ℝ) =
        (k : ℝ) * ((q.2 : ℝ) - (p.2 : ℝ)) := by
      push_cast
      ring
    have hx : ((k * q.1 : ℚ) : ℝ) - ((k * p.1 : ℚ) : ℝ) =
        (k : ℝ) * ((q.1 : ℝ) - (p.1 : ℝ)) := by
      push_cast
      ring
    rw [hx, hy]
    exact atan2_smul _ _ _ (by exact_mod_cast hk)
  constructor
  · unfold turnFromPolylines
    rw [htrans]
  · unfold turnFromPolylines
    rw [hscale]

/-- C9 witness: the invariance theorem applied to the concrete polylines of
`stA3`/`stB3` with translation (3, 4) and scale factor 2. -/
theorem turn_classification_invariance_witness :
    turnFromPolylines (stA3.coords.map fun p => (p.1 + (3:ℚ), p.2 + (4:ℚ)))
        (stB3.coords.map fun p => (p.1 + (3:ℚ), p.2 + (4:ℚ))) =
      turnFromPolylines stA3.coords stB3.coords ∧
    turnFromPolylines (stA3.coords.map fun p => ((2:ℚ) * p.1, (2:ℚ) * p.2))
        (stB3.coords.map fun p => ((2:ℚ) * p.1, (2:ℚ) * p.2)) =
      turnFromPolylines stA3.coords stB3.coords :=
  turn_classification_translation_scale_invariant stA3.coords stB3.coords
    (by decide) (by decide) (3, 4) 2 (by decide)
